import Mathlib

/-!
Verification development for the excerpted Subversion sources:
`libsvn_fs_fs/dag.c` (DAG filesystem layer), `libsvn_wc/update_editor.c`
(update/checkout editor and file installer) and `libsvn_wc/status.c`
(status classifier).  The C code is shallowly embedded: pure helpers become
Lean functions, the node-revision store becomes an explicit association
list threaded through each operation, and fallible C functions return
`Except`.  External collaborators (the storage codecs, path utilities,
property categorisation, the log executor) are modelled from the
specification where the sources are not part of the excerpt; each such
definition carries a doc comment saying so.
-/

/-- Node kinds, after `svn_node_kind_t` (file, dir, none, unknown). -/
inductive NodeKind
  | file
  | dir
  | none_
  | unknown
deriving DecidableEq

/-- Node-revision identifier, after `svn_fs_id_t`: a triple of node key,
copy key and transaction component.  `txnId = none` models an id whose
third component is a committed revision, i.e. an immutable id;
`txnId = some t` models an id carrying transaction `t`.  Node keys are
numbers so that fresh keys can be allocated by a counter. -/
structure NodeId where
  nodeKey : Nat
  copyKey : String
  txnId : Option String
deriving DecidableEq

/-- Node revision, after `svn_fs__node_revision_t` in `dag.c` /
`node-rev.h`.  The directory-entries representation (reached through
`data_rep` in the storage layer) is modelled directly as the `entries`
field: a mapping from entry name to child id and kind, as described by
the spec for `rep_contents_dir` / `set_entry`. -/
structure NodeRev where
  kind : NodeKind
  predecessor_id : Option NodeId
  predecessor_count : Int
  copyfrom_path : Option String
  copyfrom_rev : Option Int
  copyroot : Option NodeId
  data_rep : Option String
  prop_rep : Option String
  edit_key : Option String
  created_path : String
  entries : List (String × NodeId × NodeKind)
deriving DecidableEq

/-- The filesystem state: a store binding node ids to node revisions,
plus a counter from which fresh node keys are drawn.
Modelled from the spec: the node-revision store (`get`, `create`,
`create_successor`) is an external collaborator of `dag.c`. -/
structure Fs where
  store : List (NodeId × NodeRev)
  nextKey : Nat
deriving DecidableEq

/-- DAG node handle, after `struct dag_node_t`: the id plus the cached
kind and created path (the `node_revision` cache is re-read from the
store on demand, so it is not part of the handle). -/
structure DagNode where
  id : NodeId
  kind : NodeKind
  created_path : String
deriving DecidableEq

/-- Error codes carried by `svn_error_t` values in the excerpt.
`fuelExhausted` is a modelling artifact standing for non-termination of
an unbounded predecessor walk; `missingNode` stands for a storage-layer
lookup failure. -/
inductive ErrCode
  | notDirectory
  | notMutable
  | alreadyExists
  | notSinglePathComponent
  | notFound
  | notFile
  | missingNode
  | fuelExhausted
deriving DecidableEq

/-- A structured error: code plus the one-line diagnostic message. -/
structure SvnError where
  code : ErrCode
  msg : String
deriving DecidableEq

/-- Outcome of an operation that can also hit an `abort()` call in the
source (e.g. `svn_fs__dag_finalize_edits` on a node with an edit key). -/
inductive Outcome (α : Type)
  | ok (a : α)
  | err (e : SvnError)
  | aborted
deriving DecidableEq

/-- Store lookup, modelling `svn_fs__fs_get_node_revision`: the first
binding of the id in the store, if any.  Modelled from the spec
(`get(fs, id) → NR`). -/
def getNodeRev (fs : Fs) (id : NodeId) : Option NodeRev :=
  (fs.store.find? (fun p => decide (p.1 = id))).map (fun p => p.2)

/-- Store update: replace every binding of `id` by the new node revision.
Modelled from the spec (the storage layer persists the changed NR). -/
def setNodeRev (fs : Fs) (id : NodeId) (nr : NodeRev) : Fs :=
  ⟨fs.store.map (fun p => if p.1 = id then (id, nr) else p), fs.nextKey⟩

/-- Set key `name` in an association list to `v`, replacing an existing
binding or appending; models `apr_hash_set` on a directory-entries hash. -/
def assocSet (l : List (String × NodeId × NodeKind)) (name : String)
    (v : NodeId × NodeKind) : List (String × NodeId × NodeKind) :=
  match l with
  | [] => [(name, v)]
  | e :: rest =>
    if e.1 = name then (name, v) :: rest else e :: assocSet rest name v

/-- Modelled from the spec: `svn_fs__fs_create_node` allocates a fresh
NodeId whose copy component is the supplied copy id and whose third
component is the transaction, and binds it to the template NR. -/
def svn_fs__fs_create_node (fs : Fs) (noderev : NodeRev) (copyId : String)
    (txnId : String) : NodeId × Fs :=
  let id : NodeId := ⟨fs.nextKey, copyId, some txnId⟩
  (id, ⟨(id, noderev) :: fs.store, fs.nextKey + 1⟩)

/-- Modelled from the spec: `create_successor` allocates a NodeId sharing
the node key with `oldId` and carrying the supplied copy and txn
components, and binds it to the template NR. -/
def svn_fs__fs_create_successor (fs : Fs) (oldId : NodeId) (noderev : NodeRev)
    (copyId : String) (txnId : String) : NodeId × Fs :=
  let id : NodeId := ⟨oldId.nodeKey, copyId, some txnId⟩
  (id, ⟨(id, noderev) :: fs.store, fs.nextKey⟩)

/-- Modelled from the spec: `svn_path_is_single_path_component` — a single
path component has no slash and is neither `.` nor `..`. -/
def svn_path_is_single_path_component (name : String) : Bool :=
  !(name.data.contains '/') && !(name == ".") && !(name == "..")

/-- Modelled from the spec: `svn_path_join` concatenates with a slash. -/
def svn_path_join (a b : String) : String :=
  a ++ "/" ++ b

/-- Faithful to `dag.c`: `svn_fs__dag_check_mutable` ignores its `txn_id`
argument and answers whether the node's id carries any transaction. -/
def svn_fs__dag_check_mutable (node : DagNode) (txn_id : String) : Bool :=
  node.id.txnId.isSome

/-- After `svn_fs__dag_get_node`: construct a handle for `id`, reading the
kind and created path from the stored node revision. -/
def svn_fs__dag_get_node (fs : Fs) (id : NodeId) : Except SvnError DagNode :=
  match getNodeRev fs id with
  | none => .error ⟨.missingNode, "node revision not found"⟩
  | some nr => .ok ⟨id, nr.kind, nr.created_path⟩

/-- After `svn_fs__dag_dir_entries` / `get_dir_entries`: the entries list
of a directory node, `SVN_ERR_FS_NOT_DIRECTORY` otherwise. -/
def svn_fs__dag_dir_entries (fs : Fs) (node : DagNode) :
    Except SvnError (List (String × NodeId × NodeKind)) :=
  match getNodeRev fs node.id with
  | none => .error ⟨.missingNode, "node revision not found"⟩
  | some nr =>
    if nr.kind ≠ NodeKind.dir then
      .error ⟨.notDirectory, "Attempted to create entry in non-directory parent"⟩
    else
      .ok nr.entries

/-- After `dir_entry_id_from_node`: the id of entry `name` in `parent`,
or `none` without error when there is no such entry. -/
def dir_entry_id_from_node (fs : Fs) (parent : DagNode) (name : String) :
    Except SvnError (Option NodeId) :=
  match svn_fs__dag_dir_entries fs parent with
  | .error e => .error e
  | .ok es => .ok ((es.find? (fun e => e.1 == name)).map (fun e => e.2.1))

/-- After the static `set_entry` helper in `dag.c`: read the parent's NR
and set the directory entry through the storage layer
(`svn_fs__fs_set_entry`, modelled from the spec as an update of the
entries mapping). -/
def set_entry (fs : Fs) (parent : DagNode) (name : String) (id : NodeId)
    (kind : NodeKind) (txn_id : String) : Except SvnError Fs :=
  match getNodeRev fs parent.id with
  | none => .error ⟨.missingNode, "node revision not found"⟩
  | some nr =>
    .ok (setNodeRev fs parent.id
      ⟨nr.kind, nr.predecessor_id, nr.predecessor_count, nr.copyfrom_path,
       nr.copyfrom_rev, nr.copyroot, nr.data_rep, nr.prop_rep, nr.edit_key,
       nr.created_path, assocSet nr.entries name (id, kind)⟩)

/-- After `svn_fs__dag_set_entry`.  Note the source's error codes: both
the non-directory check and the mutability check return
`SVN_ERR_FS_NOT_DIRECTORY` (the second with the message
"Attempted to set entry in immutable node"). -/
def svn_fs__dag_set_entry (fs : Fs) (node : DagNode) (entry_name : String)
    (id : NodeId) (txn_id : String) : Except SvnError Fs :=
  if node.kind ≠ NodeKind.dir then
    .error ⟨.notDirectory, "Attempted to set entry in non-directory node"⟩
  else if !(svn_fs__dag_check_mutable node txn_id) then
    .error ⟨.notDirectory, "Attempted to set entry in immutable node"⟩
  else
    set_entry fs node entry_name id node.kind txn_id

/-- After `make_entry` in `dag.c`: validate the name, the parent's kind
and mutability and the absence of an entry, then create the child NR
(note the `memset` zeroes `predecessor_count`), register it in the
parent, and return the child handle with the updated filesystem. -/
def make_entry (fs : Fs) (parent : DagNode) (parent_path : String)
    (name : String) (is_dir : Bool) (txn_id : String) :
    Except SvnError (DagNode × Fs) :=
  if !(svn_path_is_single_path_component name) then
    .error ⟨.notSinglePathComponent,
      "Attempted to create a node with an illegal name"⟩
  else if parent.kind ≠ NodeKind.dir then
    .error ⟨.notDirectory, "Attempted to create entry in non-directory parent"⟩
  else if !(svn_fs__dag_check_mutable parent txn_id) then
    .error ⟨.notMutable, "Attempted to clone child of non-mutable node"⟩
  else
    match dir_entry_id_from_node fs parent name with
    | .error e => .error e
    | .ok (some _) =>
      .error ⟨.alreadyExists, "Attempted to create entry that already exists"⟩
    | .ok none =>
      let new_noderev : NodeRev :=
        ⟨(if is_dir then NodeKind.dir else NodeKind.file), none, 0, none,
         none, none, none, none, none, svn_path_join parent_path name, []⟩
      let created := svn_fs__fs_create_node fs new_noderev
        parent.id.copyKey txn_id
      match svn_fs__dag_get_node created.2 created.1 with
      | .error e => .error e
      | .ok child =>
        match set_entry created.2 parent name child.id new_noderev.kind
            txn_id with
        | .error e => .error e
        | .ok fs2 => .ok (child, fs2)

/-- After `svn_fs__dag_make_file`. -/
def svn_fs__dag_make_file (fs : Fs) (parent : DagNode) (parent_path : String)
    (name : String) (txn_id : String) : Except SvnError (DagNode × Fs) :=
  make_entry fs parent parent_path name false txn_id

/-- After `svn_fs__dag_make_dir`. -/
def svn_fs__dag_make_dir (fs : Fs) (parent : DagNode) (parent_path : String)
    (name : String) (txn_id : String) : Except SvnError (DagNode × Fs) :=
  make_entry fs parent parent_path name true txn_id

/-- After `svn_fs__dag_open`: look the name up in the parent's entries
(`SVN_ERR_FS_NOT_FOUND` when absent), then validate the name, then build
the child handle. -/
def svn_fs__dag_open (fs : Fs) (parent : DagNode) (name : String) :
    Except SvnError DagNode :=
  match dir_entry_id_from_node fs parent name with
  | .error e => .error e
  | .ok none =>
    .error ⟨.notFound, "Attempted to open non-existant child node"⟩
  | .ok (some nid) =>
    if !(svn_path_is_single_path_component name) then
      .error ⟨.notSinglePathComponent,
        "Attempted to open node with an illegal name"⟩
    else
      svn_fs__dag_get_node fs nid

/-- After the clone step of `svn_fs__dag_clone_child`: the predecessor
count is incremented unless it is the unknown sentinel `-1`. -/
def bump_predecessor_count (c : Int) : Int :=
  if c ≠ -1 then c + 1 else c

/-- After `svn_fs__dag_clone_child`: check parent mutability and the
name, open the current child; a child that is already mutable is
returned unchanged, otherwise a successor NR is created (bumping
`predecessor_count` when it is not `-1`) and the parent's entry is
replaced. -/
def svn_fs__dag_clone_child (fs : Fs) (parent : DagNode)
    (parent_path : String) (name : String) (copy_id : String)
    (txn_id : String) : Except SvnError (DagNode × Fs) :=
  if !(svn_fs__dag_check_mutable parent txn_id) then
    .error ⟨.notMutable, "Attempted to clone child of non-mutable node"⟩
  else if !(svn_path_is_single_path_component name) then
    .error ⟨.notSinglePathComponent,
      "Attempted to make a child clone with an illegal name"⟩
  else
    match svn_fs__dag_open fs parent name with
    | .error e => .error e
    | .ok cur_entry =>
      if svn_fs__dag_check_mutable cur_entry txn_id then
        match svn_fs__dag_get_node fs cur_entry.id with
        | .error e => .error e
        | .ok child => .ok (child, fs)
      else
        match getNodeRev fs cur_entry.id with
        | none => .error ⟨.missingNode, "node revision not found"⟩
        | some nr =>
          let nr' : NodeRev :=
            ⟨nr.kind, some cur_entry.id,
             bump_predecessor_count nr.predecessor_count,
             nr.copyfrom_path, nr.copyfrom_rev, nr.copyroot, nr.data_rep,
             nr.prop_rep, nr.edit_key, svn_path_join parent_path name,
             nr.entries⟩
          let created := svn_fs__fs_create_successor fs cur_entry.id nr'
            copy_id txn_id
          match set_entry created.2 parent name created.1 nr'.kind txn_id with
          | .error e => .error e
          | .ok fs2 =>
            match svn_fs__dag_get_node fs2 created.1 with
            | .error e => .error e
            | .ok child => .ok (child, fs2)

/-- After `svn_fs__dag_get_edit_stream`: a file-kind check, then the
mutability check, then the storage layer opens a write stream (the
stream itself is external, so success is reported as a unit). -/
def svn_fs__dag_get_edit_stream (fs : Fs) (file : DagNode)
    (txn_id : String) : Except SvnError Unit :=
  if file.kind ≠ NodeKind.file then
    .error ⟨.notFile, "Attempted to set textual contents of a *non*-file node"⟩
  else if !(svn_fs__dag_check_mutable file txn_id) then
    .error ⟨.notMutable, "Attempted to set textual contents of an immutable node"⟩
  else
    match getNodeRev fs file.id with
    | none => .error ⟨.missingNode, "node revision not found"⟩
    | some _ => .ok ()

/-- After `svn_fs__dag_finalize_edits`: a file-kind check, the mutability
check, then a no-op when the NR has no edit key and an `abort()`
otherwise. -/
def svn_fs__dag_finalize_edits (fs : Fs) (file : DagNode)
    (txn_id : String) : Outcome Unit :=
  if file.kind ≠ NodeKind.file then
    .err ⟨.notFile, "Attempted to set textual contents of a *non*-file node"⟩
  else if !(svn_fs__dag_check_mutable file txn_id) then
    .err ⟨.notMutable, "Attempted to set textual contents of an immutable node"⟩
  else
    match getNodeRev fs file.id with
    | none => .err ⟨.missingNode, "node revision not found"⟩
    | some nr =>
      match nr.edit_key with
      | none => .ok ()
      | some _ => .aborted

/-- After `svn_fs__dag_walk_predecessors`.  Each loop iteration reads the
current node's NR, resolves the predecessor (reading its NR through
`svn_fs__dag_get_node`, which fails when it is missing), and invokes the
callback on the predecessor — `none` when the chain is exhausted.  The
callback threads a state `s` (the C baton) and returns the `done` flag.
The C loop has no bound, so the model takes fuel; running out of fuel
stands for divergence and the result additionally reports how many times
the callback was invoked. -/
def svn_fs__dag_walk_predecessors {σ : Type} (fs : Fs)
    (cb : σ → Option NodeId → σ × Bool) :
    Nat → σ → NodeId → Except SvnError (σ × Nat)
  | 0, _, _ => .error ⟨.fuelExhausted, "predecessor walk did not terminate"⟩
  | Nat.succ fuel, s, cur =>
    match getNodeRev fs cur with
    | none => .error ⟨.missingNode, "node revision not found"⟩
    | some nr =>
      match nr.predecessor_id with
      | none => .ok ((cb s none).1, 1)
      | some p =>
        match getNodeRev fs p with
        | none => .error ⟨.missingNode, "node revision not found"⟩
        | some _ =>
          let r := cb s (some p)
          if r.2 then .ok (r.1, 1)
          else
            match svn_fs__dag_walk_predecessors fs cb fuel r.1 p with
            | .error e => .error e
            | .ok (s2, c) => .ok (s2, c + 1)

/-- Modelled from the spec: `svn_fs_check_related` holds when the node
keys match ("related(a,b) holds when node-key matches"). -/
def svn_fs_check_related (a b : NodeId) : Bool :=
  a.nodeKey == b.nodeKey

/-- After `is_ancestor_callback`: on a non-nil node compare its id with
the sought id, recording a hit in the baton's flag; set `done` exactly
when only parenthood is of interest. -/
def is_ancestor_callback (node1_id : NodeId) (need_parent : Bool)
    (s : Bool) (n : Option NodeId) : Bool × Bool :=
  match n with
  | none => (s, false)
  | some nid => (s || decide (nid = node1_id), need_parent)

/-- After `svn_fs__dag_is_ancestor`: relatedness is a prerequisite, then
the predecessors of `node2` are walked looking for `node1`'s id. -/
def svn_fs__dag_is_ancestor (fs : Fs) (fuel : Nat) (node1 node2 : DagNode) :
    Except SvnError Bool :=
  if !(svn_fs_check_related node1.id node2.id) then .ok false
  else
    match svn_fs__dag_walk_predecessors fs
        (is_ancestor_callback node1.id false) fuel false node2.id with
    | .error e => .error e
    | .ok r => .ok r.1

/-- After `svn_fs__dag_is_parent`: as `is_ancestor`, but the callback
stops the walk after the first predecessor. -/
def svn_fs__dag_is_parent (fs : Fs) (fuel : Nat) (node1 node2 : DagNode) :
    Except SvnError Bool :=
  if !(svn_fs_check_related node1.id node2.id) then .ok false
  else
    match svn_fs__dag_walk_predecessors fs
        (is_ancestor_callback node1.id true) fuel false node2.id with
    | .error e => .error e
    | .ok r => .ok r.1

/-- One node satisfies the predecessor-count invariant of the data model
(§3.2: a known count bounds the chain): whenever its count is known
(non-negative) and it has a predecessor, that predecessor is present with
a known, strictly smaller count. -/
def wfAt (fs : Fs) (id : NodeId) : Bool :=
  match getNodeRev fs id with
  | none => true
  | some nr =>
    if 0 ≤ nr.predecessor_count then
      match nr.predecessor_id with
      | none => true
      | some q =>
        match getNodeRev fs q with
        | none => false
        | some qnr =>
          decide (0 ≤ qnr.predecessor_count ∧
            qnr.predecessor_count < nr.predecessor_count)
    else true

/-- The whole store satisfies the predecessor-count invariant. -/
def wellFormedFs (fs : Fs) : Bool :=
  fs.store.all (fun p => wfAt fs p.1)

/-- Every node key in the store is below the allocation counter, so a
freshly created node gets an unused id. -/
def freshKeys (fs : Fs) : Bool :=
  fs.store.all (fun p => p.1.nodeKey < fs.nextKey)

/-! Working-copy layer: status classifier (`status.c`) and editor
callbacks (`update_editor.c`). -/

/-- Status values, after `enum svn_wc_status_kind` (the ones the excerpt
assigns). -/
inductive WcStatus
  | none_
  | added
  | deleted
  | replaced
  | modified
  | conflicted
deriving DecidableEq

/-- Schedule values, after `svn_wc_schedule_t`. -/
inductive Schedule
  | normal
  | add
  | delete
  | replace
deriving DecidableEq

/-- The fields of a working-copy entry that `assemble_status` inspects. -/
structure WcEntry where
  kind : NodeKind
  schedule : Schedule
  conflicted : Bool
deriving DecidableEq

/-- Results of the external checks `assemble_status` performs:
`propKind` is `svn_io_check_path` on the entry's property file,
`propsModified` / `textModified` are `svn_wc_props_modified_p` /
`svn_wc_text_modified_p`, and `textConflictP` / `propConflictP` are the
two answers of `svn_wc_conflicted_p` (whether a reject file is mentioned
in the entry and still exists on disk). -/
structure StatusEnv where
  propKind : NodeKind
  propsModified : Bool
  textModified : Bool
  textConflictP : Bool
  propConflictP : Bool
deriving DecidableEq

/-- The two status components `assemble_status` fills in. -/
structure WcStatusRec where
  text_status : WcStatus
  prop_status : WcStatus
deriving DecidableEq

/-- After `assemble_status` in `status.c`: default both components to
`none`; mark `modified` from the disk checks (the text check only for
file entries, the prop check only when a property file exists); apply
schedule overrides; finally, for a conflicted entry, let the
`svn_wc_conflicted_p` answers override each component. -/
def assemble_status (entry : Option WcEntry) (env : StatusEnv) :
    WcStatusRec :=
  match entry with
  | none => ⟨.none_, .none_⟩
  | some e =>
    let prop_exists : Bool := env.propKind == NodeKind.file
    let prop_modified_p : Bool := prop_exists && env.propsModified
    let text_modified_p : Bool :=
      (e.kind == NodeKind.file) && env.textModified
    let t0 : WcStatus := if text_modified_p then .modified else .none_
    let p0 : WcStatus := if prop_modified_p then .modified else .none_
    let t1 : WcStatus :=
      match e.schedule with
      | .add => .added
      | .replace => .replaced
      | .delete => .deleted
      | .normal => t0
    let p1 : WcStatus :=
      match e.schedule with
      | .add => if prop_exists then .added else p0
      | .replace => if prop_exists then .replaced else p0
      | .delete => if prop_exists then .deleted else p0
      | .normal => p0
    if e.conflicted then
      ⟨(if env.textConflictP then .conflicted else t1),
       (if env.propConflictP then .conflicted else p1)⟩
    else
      ⟨t1, p1⟩

/-- Error codes of the working-copy layer used by the excerpt. -/
inductive WcErrCode
  | obstructedUpdate
  | unsupportedFeature
  | entryNotFound
deriving DecidableEq

/-- A structured working-copy error: code plus diagnostic message. -/
structure WcError where
  code : WcErrCode
  msg : String
deriving DecidableEq

/-- Environment of one `add_directory` call: the kind `svn_io_check_path`
reports for the new directory's path, the parent entry's URL (the call
dereferences it, so the entry is assumed present), and the edit's target
revision. -/
structure AddDirEnv where
  diskKind : NodeKind
  parentEntryUrl : String
  targetRevision : Int
deriving DecidableEq

/-- Result of `add_directory`: the `abort()` on a half-specified copyfrom
pair, an error, or success carrying the ancestor URL and revision handed
to `prep_directory`. -/
inductive AddDirResult
  | aborted
  | err (e : WcError)
  | ok (url : String) (rev : Int)
deriving DecidableEq

/-- After `add_directory` in `update_editor.c`: `abort()` on a mixed
copyfrom pair; `SVN_ERR_WC_OBSTRUCTED_UPDATE` when an object already
exists on disk at the new path; `SVN_ERR_UNSUPPORTED_FEATURE` when real
copyfrom arguments were passed; otherwise the new directory inherits the
parent entry's URL plus the name and the edit's target revision. -/
def add_directory (name : String) (copyfrom_path : Option String)
    (copyfrom_revision : Option Int) (env : AddDirEnv) : AddDirResult :=
  if (copyfrom_path.isSome && copyfrom_revision.isNone)
      || (copyfrom_path.isNone && copyfrom_revision.isSome) then
    .aborted
  else if env.diskKind ≠ NodeKind.none_ then
    .err ⟨.obstructedUpdate, "object already exists and is in the way"⟩
  else if copyfrom_path.isSome || copyfrom_revision.isSome then
    .err ⟨.unsupportedFeature, "copyfrom args are not supported yet"⟩
  else
    .ok (svn_path_join env.parentEntryUrl name) env.targetRevision

/-- Environment of one `add_or_open_file` call: whether the parent's
on-disk directory listing contains the name (`svn_io_get_dirents`),
whether the parent's entries file has a record for the name
(`svn_wc_entries_read`), and whether the parent is a working copy
(`svn_wc_check_wc`). -/
structure FileEnv where
  direntExists : Bool
  entryExists : Bool
  isWc : Bool
deriving DecidableEq

/-- After `add_or_open_file` in `update_editor.c`: when adding, an
on-disk object of the same name is `SVN_ERR_WC_OBSTRUCTED_UPDATE`; when
opening, a missing entries record is `SVN_ERR_ENTRY_NOT_FOUND`; a parent
that is not a working copy is `SVN_ERR_WC_OBSTRUCTED_UPDATE`; otherwise
the file baton is created (reported as a unit). -/
def add_or_open_file (name : String) (adding : Bool) (env : FileEnv) :
    Except WcError Unit :=
  if adding && env.direntExists then
    .error ⟨.obstructedUpdate, "object of same name already exists"⟩
  else if !adding && !env.entryExists then
    .error ⟨.entryNotFound, "trying to open non-versioned file"⟩
  else if !env.isWc then
    .error ⟨.obstructedUpdate, "parent is not a working copy directory"⟩
  else
    .ok ()

/-- After `add_file`. -/
def add_file (name : String) (env : FileEnv) : Except WcError Unit :=
  add_or_open_file name true env

/-- After `open_file`. -/
def open_file (name : String) (env : FileEnv) : Except WcError Unit :=
  add_or_open_file name false env

/-- Reports whether a call failed with `SVN_ERR_WC_OBSTRUCTED_UPDATE`. -/
def isObstructedErr (r : Except WcError Unit) : Bool :=
  match r with
  | .error e => e.code == WcErrCode.obstructedUpdate
  | .ok _ => false

/-- Modelled from the spec (property namespaces, §6): a wc-prop name
starts with the `svn:wc:` namespace. -/
def svn_wc_is_wc_prop (name : String) : Bool :=
  "svn:wc:".data.isPrefixOf name.data

/-- Modelled from the spec (property namespaces, §6): an entry-prop name
starts with the `svn:entry:` namespace. -/
def svn_wc_is_entry_prop (name : String) : Bool :=
  "svn:entry:".data.isPrefixOf name.data

/-- Modelled from the spec: stripping the entry-prop namespace drops the
`svn:entry:` component (10 characters). -/
def stripEntryPfx (name : String) : String :=
  name.drop 10

/-- What one `change_dir_prop` call does with the pair, by
classification: store a wc-prop out-of-band, write an attribute into the
directory's own `<this-dir>` entry record, or queue a regular
propchange in the dir baton. -/
inductive DirPropAction
  | wcPropSet (name : String) (value : Option String)
  | entryAttrSet (attr : String) (value : String)
  | queuedChange (name : String) (value : Option String)
deriving DecidableEq

/-- After `change_dir_prop` in `update_editor.c`: wc-props go to the
administrative area as given; entry-props are written as an attribute of
the `<this-dir>` entry, a `NULL` value becoming the empty string; every
other property is queued as a propchange (a `NULL` value meaning
deletion). -/
def change_dir_prop (name : String) (value : Option String) :
    DirPropAction :=
  if svn_wc_is_wc_prop name then
    .wcPropSet name value
  else if svn_wc_is_entry_prop name then
    .entryAttrSet (stripEntryPfx name) (value.getD "")
  else
    .queuedChange name value

/-! File installer: the log `svn_wc_install_file` accumulates and runs.
Log records are modelled as a tag plus the ordered attribute list the
source passes to `svn_xml_make_open_tag`; the attribute-name and value
constants live in headers outside the excerpt and are modelled from the
spec's log grammar. -/

/-- Log command tags, after the `SVN_WC__LOG_*` tag names. -/
inductive LogTag
  | modifyEntry
  | deleteEntry
  | cp
  | mv
  | rm
  | readonly
  | runCmd
  | detectConflict
deriving DecidableEq

/-- One log record: tag plus attribute pairs in emission order. -/
structure LogCmd where
  tag : LogTag
  attrs : List (String × String)
deriving DecidableEq

/-- A property as passed to the installer, after `svn_prop_t` (a `none`
value signifies deletion / unavailable information). -/
structure SProp where
  name : String
  value : Option String
deriving DecidableEq

/-- Keyword bindings, after `svn_wc_keywords_t`. -/
structure Keywords where
  revision : Option String
  date : Option String
  author : Option String
  url : Option String
deriving DecidableEq

/-- Eol styles, after `enum svn_wc__eol_style`. -/
inductive EolStyle
  | none_
  | native
  | fixed
deriving DecidableEq

/-- Modelled from the spec: attribute-name constants of the log grammar
(defined in `wc.h`, outside the excerpt). -/
def attrNameName : String := "name"

/-- Modelled from the spec: the `dest` attribute name. -/
def attrDest : String := "dest"

/-- Modelled from the spec: the entry attribute `kind`. -/
def attrKind : String := "kind"

/-- Modelled from the spec: the entry attribute `revision`. -/
def attrRevision : String := "revision"

/-- Modelled from the spec: the entry attribute `text-time`. -/
def attrTextTime : String := "text-time"

/-- Modelled from the spec: the entry attribute `prop-time`. -/
def attrPropTime : String := "prop-time"

/-- Modelled from the spec: the entry attribute `url`. -/
def attrUrl : String := "url"

/-- Modelled from the spec: the entry attribute `conflict rejfile`. -/
def attrRejfile : String := "rejfile"

/-- Modelled from the spec: the `SVN_WC_TIMESTAMP_WC` sentinel, written
as `WC` in the spec's log grammar ("record working-file mtime at
replay"). -/
def timestampWC : String := "WC"

/-- Modelled from the spec: the entries-file value naming the file kind. -/
def kindFileStr : String := "file"

/-- Modelled from the spec: the eol-style property name. -/
def propEolStyle : String := "svn:eol-style"

/-- Modelled from the spec: the keywords property name. -/
def propKeywords : String := "svn:keywords"

/-- Modelled from the spec: pristine text-base paths relative to the
directory holding the log (`text-base/<name>.svn-base`, with the `tmp/`
prefix for the temporary location). -/
def svn_wc__text_base_path (name : String) (tmp : Bool) : String :=
  (if tmp then "tmp/text-base/" else "text-base/") ++ name ++ ".svn-base"

/-- Modelled from the spec: `svn_wc__eol_style_from_value` maps a
property value to a style and the symbolic eol string (`native` keeps
the symbol, the fixed styles keep their CR/LF/CRLF symbol, anything else
means no translation). -/
def svn_wc__eol_style_from_value (v : String) : EolStyle × Option String :=
  if v == "native" then (.native, some "native")
  else if v == "CR" then (.fixed, some "CR")
  else if v == "LF" then (.fixed, some "LF")
  else if v == "CRLF" then (.fixed, some "CRLF")
  else (.none_, none)

/-- Modelled from the spec: entries attribute fed by the committed-rev
entry prop. -/
def attrCommittedRev : String := "committed-rev"

/-- Modelled from the spec: entries attribute fed by the committed-date
entry prop. -/
def attrCommittedDate : String := "committed-date"

/-- Modelled from the spec: entries attribute fed by the last-author
entry prop. -/
def attrLastAuthor : String := "last-author"

/-- After `latest_keyword_data`: fold the freshly received entry props
over the keyword bindings, re-binding each keyword that is already set
and whose entry prop arrived (the C assigns the prop's value pointer,
which may be null). -/
def latest_keyword_data (props : List SProp) (kw : Keywords) : Keywords :=
  props.foldl
    (fun k p =>
      let pn := stripEntryPfx p.name
      let k1 : Keywords :=
        if k.revision.isSome && (pn == attrCommittedRev) then
          ⟨p.value, k.date, k.author, k.url⟩
        else k
      let k2 : Keywords :=
        if k1.date.isSome && (pn == attrCommittedDate) then
          ⟨k1.revision, p.value, k1.author, k1.url⟩
        else k1
      if k2.author.isSome && (pn == attrLastAuthor) then
        ⟨k2.revision, k2.date, p.value, k2.url⟩
      else k2)
    kw

/-- Environment of one `svn_wc_install_file` call: the answers of every
external check and the names `svn_io_open_unique_file` reserved
(already relative to the parent directory, as the source chops the
prefix). -/
structure InstallEnv where
  hasBinaryProp : Bool
  isLocallyModified : Bool
  propsModified : Bool
  wfileMissing : Bool
  workingEol : EolStyle × Option String
  workingKeywords : Option Keywords
  freshKeywordsOf : String → Option Keywords
  propConflicts : List String
  propMergeCps : List (String × String)
  parentEntryUrl : Option String
  receivedDiffName : String
  trTxtbName : String
  trTmpTxtbName : String
  rejectName : String
  tmpWorkingName : String
  renamedBasename : String

/-- After `make_translation_open_tag`: a `CP` record carrying source,
destination, the optional eol string, the repair flag, the keyword
values and the expand flag (the hash iteration order of the source is
fixed here as the order the fields are stored). -/
def make_translation_open_tag (name dest : String) (eol_str : Option String)
    (repair : Bool) (keywords : Option Keywords) (expand : Bool) : LogCmd :=
  ⟨.cp,
    [(attrNameName, name), (attrDest, dest)]
    ++ (match eol_str with | some e => [("eol-str", e)] | none => [])
    ++ (if repair then [("repair", "true")] else [])
    ++ (match keywords with
        | none => []
        | some k =>
          (match k.revision with
           | some r => [(attrRevision, r)] | none => [])
          ++ (match k.date with | some d => [("date", d)] | none => [])
          ++ (match k.author with | some a => [("author", a)] | none => [])
          ++ (match k.url with | some u => [(attrUrl, u)] | none => []))
    ++ (if expand then [("expand", "true")] else [])⟩

/-- After `make_patch_open_tag`: the backup prefix is `-B` followed by
the target's directory part plus `.#`, or `-B.#` for a bare basename. -/
def backupPrefixFor (path : String) : String :=
  if path.data.contains '/' then
    "-B" ++ String.mk ((path.data.reverse.dropWhile (fun c => c ≠ '/')).drop 1).reverse
      ++ "/.#"
  else
    "-B.#"

/-- After `make_patch_open_tag`: a `RUN_CMD` record invoking the patch
program.  The source passes the `ARG_4` attribute twice (`-f`, then
`--silent`); both pairs are kept. -/
def make_patch_open_tag (path reject_file patch_file : String) : LogCmd :=
  ⟨.runCmd,
    [(attrNameName, "patch"),
     ("arg1", "-r"), ("arg2", reject_file),
     ("arg3", backupPrefixFor path),
     ("arg4", "-f"), ("arg4", "--silent"),
     ("arg5", "--"), ("arg6", path),
     ("infile", patch_file)]⟩

/-- The textual-merge section of the installer's log (`dag` lines
1558-2114 of `update_editor.c`): the eol-style and keywords decisions,
the `MV` positioning the new text-base, the merge matrix and the final
`READONLY`. -/
def installTextSection (env : InstallEnv) (basename : String)
    (regularProps entryProps : List SProp) (newURL : Option String) :
    List LogCmd :=
  let txtb := svn_wc__text_base_path basename false
  let tmp_txtb := svn_wc__text_base_path basename true
  let freshEol := regularProps.find? (fun p => p.name == propEolStyle)
  let eolPair :=
    match freshEol with
    | none => env.workingEol
    | some p =>
      if env.propConflicts.contains propEolStyle then env.workingEol
      else svn_wc__eol_style_from_value (p.value.getD "")
  let freshKw := regularProps.find? (fun p => p.name == propKeywords)
  let kw0 :=
    match freshKw with
    | none => env.workingKeywords
    | some p =>
      if env.propConflicts.contains propKeywords then env.workingKeywords
      else env.freshKeywordsOf (p.value.getD "")
  let kw1 :=
    match kw0 with
    | none => none
    | some k => some (latest_keyword_data entryProps k)
  let kw :=
    match kw1 with
    | none => none
    | some k =>
      if k.url.isSome then
        match newURL with
        | some u => some ⟨k.revision, k.date, k.author, some u⟩
        | none =>
          match env.parentEntryUrl with
          | some pu =>
            some ⟨k.revision, k.date, k.author,
              some (svn_path_join pu basename)⟩
          | none => some k
      else some k
  let eol_str := eolPair.2
  [LogCmd.mk .mv [(attrNameName, tmp_txtb), (attrDest, txtb)]]
  ++ (if !env.isLocallyModified then
        [make_translation_open_tag txtb basename eol_str false kw true]
      else if !env.hasBinaryProp then
        (if env.wfileMissing then
          [make_translation_open_tag txtb basename eol_str false kw true]
        else
          [LogCmd.mk .rm [(attrNameName, env.trTxtbName)],
           LogCmd.mk .rm [(attrNameName, env.trTmpTxtbName)]]
          ++ (if (eolPair.1 == EolStyle.none_) && kw.isNone then
                [make_patch_open_tag basename env.rejectName
                  env.receivedDiffName]
              else
                [make_translation_open_tag basename env.tmpWorkingName
                  (some "LF") true kw false,
                 make_patch_open_tag env.tmpWorkingName env.rejectName
                  env.receivedDiffName,
                 make_translation_open_tag env.tmpWorkingName basename
                  eol_str false kw true,
                 LogCmd.mk .rm [(attrNameName, env.tmpWorkingName)]])
          ++ [LogCmd.mk .rm [(attrNameName, env.receivedDiffName)],
              LogCmd.mk .detectConflict
                [(attrNameName, basename), (attrRejfile, env.rejectName)]])
      else
        [LogCmd.mk .cp
          [(attrNameName, basename), (attrDest, env.renamedBasename)],
         LogCmd.mk .cp [(attrNameName, txtb), (attrDest, basename)]])
  ++ [LogCmd.mk .readonly [(attrNameName, txtb)]]

/-- The distinguished `MODIFY_ENTRY` record that bumps a file entry's
kind and revision (emitted unconditionally by the installer). -/
def kindRevCmd (basename : String) (new_revision : Int) : LogCmd :=
  ⟨.modifyEntry,
    [(attrNameName, basename), (attrKind, kindFileStr),
     (attrRevision, toString new_revision)]⟩

/-- The distinguished `MODIFY_ENTRY` record that re-stamps the entry's
text time from the working file at replay. -/
def textTimeCmd (basename : String) : LogCmd :=
  ⟨.modifyEntry, [(attrNameName, basename), (attrTextTime, timestampWC)]⟩

/-- After `svn_wc_install_file` in `update_editor.c`: the full sequence
of log records the call accumulates before closing and running the log.
Property categorisation follows the spec's namespaces; the regular-prop
merge (`svn_wc__merge_prop_diffs`) is external and contributes the `CP`
records listed in the environment; then come the entry-prop
`MODIFY_ENTRY` records, the textual-merge section when a new text base
arrived, the unconditional kind/revision bump, the conditional
text-time and prop-time stamps, and the URL record for a switch. -/
def svn_wc_install_file_log (env : InstallEnv) (basename : String)
    (new_revision : Int) (hasNewText : Bool) (props : Option (List SProp))
    (is_full_proplist : Bool) (newURL : Option String) : List LogCmd :=
  let propList := props.getD []
  let entryProps :=
    if props.isSome then propList.filter (fun p => svn_wc_is_entry_prop p.name)
    else []
  let regularProps :=
    if props.isSome then
      propList.filter
        (fun p => !(svn_wc_is_entry_prop p.name) && !(svn_wc_is_wc_prop p.name))
    else []
  (if props.isSome then
    env.propMergeCps.map
      (fun pr => LogCmd.mk .cp [(attrNameName, pr.1), (attrDest, pr.2)])
   else [])
  ++ entryProps.map
      (fun p => LogCmd.mk .modifyEntry
        [(attrNameName, basename),
         (stripEntryPfx p.name, p.value.getD "")])
  ++ (if hasNewText then
        installTextSection env basename regularProps entryProps newURL
      else [])
  ++ [kindRevCmd basename new_revision]
  ++ (if hasNewText && !env.isLocallyModified then [textTimeCmd basename]
      else [])
  ++ (if props.isSome && !env.propsModified then
        [LogCmd.mk .modifyEntry
          [(attrNameName, basename), (attrPropTime, timestampWC)]]
      else [])
  ++ (match newURL with
      | some u =>
        [LogCmd.mk .modifyEntry [(attrNameName, basename), (attrUrl, u)]]
      | none => [])

/-! Concrete stores and nodes used by example theorems. -/

/-- Example: a directory node revision with no entries. -/
def exDirNr : NodeRev :=
  ⟨NodeKind.dir, none, 0, none, none, none, none, none, none, "/", []⟩

/-- Example: a directory handle whose id carries transaction `A`. -/
def exMutANode : DagNode := ⟨⟨0, "c", some "A"⟩, NodeKind.dir, "/"⟩

/-- Example: a store binding only `exMutANode`'s id. -/
def exFsA : Fs := ⟨[(⟨0, "c", some "A"⟩, exDirNr)], 1⟩

/-- Example: an immutable directory handle (no transaction in the id). -/
def exImmDirNode : DagNode := ⟨⟨1, "c", none⟩, NodeKind.dir, "/"⟩

/-- Example: an immutable file handle. -/
def exImmFileNode : DagNode := ⟨⟨2, "c", none⟩, NodeKind.file, "/f"⟩

/-- Example: a mutable parent directory (txn `A`) with one entry `c`
whose child id carries the other transaction `B`. -/
def exC4ChildIdB : NodeId := ⟨1, "c", some "B"⟩

/-- Example: the child's node revision for the clone examples. -/
def exC4ChildNr : NodeRev :=
  ⟨NodeKind.dir, none, 0, none, none, none, none, none, none, "/c", []⟩

/-- Example: parent node revision holding entry `c` pointing at the
`B`-transaction child. -/
def exC4ParentNrB : NodeRev :=
  ⟨NodeKind.dir, none, 0, none, none, none, none, none, none, "/",
   [("c", exC4ChildIdB, NodeKind.dir)]⟩

/-- Example: store with the txn-`A` parent and the txn-`B` child. -/
def exC4FsB : Fs :=
  ⟨[(⟨0, "c", some "A"⟩, exC4ParentNrB), (exC4ChildIdB, exC4ChildNr)], 2⟩

/-- Example: an immutable child id for the clone examples. -/
def exC4ChildIdImm : NodeId := ⟨1, "c", none⟩

/-- Example: parent node revision holding entry `c` pointing at the
immutable child. -/
def exC4ParentNrImm : NodeRev :=
  ⟨NodeKind.dir, none, 0, none, none, none, none, none, none, "/",
   [("c", exC4ChildIdImm, NodeKind.dir)]⟩

/-- Example: store with the txn-`A` parent and the immutable child. -/
def exC4FsImm : Fs :=
  ⟨[(⟨0, "c", some "A"⟩, exC4ParentNrImm), (exC4ChildIdImm, exC4ChildNr)], 2⟩

/-- Example: node revision of a history root (no predecessor, count 0). -/
def exC8NrOld : NodeRev :=
  ⟨NodeKind.file, none, 0, none, none, none, none, none, none, "/a", []⟩

/-- Example: successor node revision (predecessor the root, count 1). -/
def exC8NrNew : NodeRev :=
  ⟨NodeKind.file, some ⟨0, "c", none⟩, 1, none, none, none, none, none,
   none, "/a", []⟩

/-- Example: store with a two-node predecessor chain sharing node key 0. -/
def exC8Fs : Fs :=
  ⟨[(⟨0, "c", none⟩, exC8NrOld), (⟨0, "d", some "T"⟩, exC8NrNew)], 1⟩

/-- Example: handle on the chain's root. -/
def exC8N1 : DagNode := ⟨⟨0, "c", none⟩, NodeKind.file, "/a"⟩

/-- Example: handle on the chain's successor. -/
def exC8N2 : DagNode := ⟨⟨0, "d", some "T"⟩, NodeKind.file, "/a"⟩

/-- Example: installer environment for a binary file with local
modifications (used to exercise the text-merge matrix). -/
def exInstallEnv : InstallEnv :=
  ⟨true, true, false, false, (EolStyle.none_, none), none, fun _ => none,
   [], [], none, "d", "t1", "t2", "rej", "tw", "orig"⟩

/-- Example: installer environment for a text file with no local
modifications. -/
def exInstallEnvNoMod : InstallEnv :=
  ⟨false, false, false, false, (EolStyle.none_, none), none, fun _ => none,
   [], [], none, "d", "t1", "t2", "rej", "tw", "orig"⟩

/-! Helper lemmas about the store, followed by the claim theorems. -/

/-- Looking up the id just prepended to the store succeeds. -/
theorem getNodeRev_cons_self (st : List (NodeId × NodeRev)) (k : Nat)
    (id : NodeId) (nr : NodeRev) :
    getNodeRev ⟨(id, nr) :: st, k⟩ id = some nr := by
  simp [getNodeRev]

/-- Prepending a binding for a different id does not change a lookup. -/
theorem getNodeRev_cons_ne (st : List (NodeId × NodeRev)) (k k' : Nat)
    (id id' : NodeId) (nr : NodeRev) (h : id' ≠ id) :
    getNodeRev ⟨(id, nr) :: st, k⟩ id' = getNodeRev ⟨st, k'⟩ id' := by
  simp [getNodeRev, List.find?_cons, h, Ne.symm h]

/-- A successful lookup names a key that is in the store, below the
allocation counter when the store has fresh keys. -/
theorem getNodeRev_key_lt (fs : Fs) (id : NodeId) (nr : NodeRev)
    (h : getNodeRev fs id = some nr) (hf : freshKeys fs = true) :
    id.nodeKey < fs.nextKey := by
  unfold getNodeRev at h
  obtain ⟨p, hp, -⟩ := Option.map_eq_some'.mp h
  have hmem := List.mem_of_find?_eq_some hp
  have hpred := List.find?_some hp
  have hid : p.1 = id := of_decide_eq_true hpred
  have := (List.all_eq_true.mp hf) p hmem
  simpa [freshKeys, hid] using this

/-- Remapping the bindings of `id` to the new node revision makes a
search for `id` find the new binding, provided a binding existed. -/
theorem find_set_self (l : List (NodeId × NodeRev)) (id : NodeId)
    (nr' : NodeRev) (h : (l.find? (fun p => decide (p.1 = id))).isSome = true) :
    (l.map (fun p => if p.1 = id then (id, nr') else p)).find?
      (fun p => decide (p.1 = id)) = some (id, nr') := by
  induction l with
  | nil => simp at h
  | cons p l ih =>
    by_cases hp : p.1 = id
    · rw [List.map_cons, if_pos hp]
      exact List.find?_cons_of_pos _ (by simp)
    · rw [List.map_cons, if_neg hp]
      rw [List.find?_cons_of_neg _ (by simpa using hp)]
      rw [List.find?_cons_of_neg _ (by simpa using hp)] at h
      exact ih h

/-- Remapping the bindings of `id` does not change a search for another
id. -/
theorem find_set_ne (l : List (NodeId × NodeRev)) (id id' : NodeId)
    (nr' : NodeRev) (h : id' ≠ id) :
    (l.map (fun p => if p.1 = id then (id, nr') else p)).find?
        (fun p => decide (p.1 = id')) =
      l.find? (fun p => decide (p.1 = id')) := by
  induction l with
  | nil => simp
  | cons p l ih =>
    by_cases hp : p.1 = id
    · rw [List.map_cons, if_pos hp]
      rw [List.find?_cons_of_neg _ (by simpa using fun hh => h hh.symm)]
      rw [List.find?_cons_of_neg _ (by simp [hp]; exact fun hh => h hh.symm)]
      exact ih
    · rw [List.map_cons, if_neg hp]
      by_cases hp' : p.1 = id'
      · rw [List.find?_cons_of_pos _ (by simpa using hp'),
          List.find?_cons_of_pos _ (by simpa using hp')]
      · rw [List.find?_cons_of_neg _ (by simpa using hp'),
          List.find?_cons_of_neg _ (by simpa using hp')]
        exact ih

/-- Updating a present binding makes later lookups of that id see the
new node revision. -/
theorem getNodeRev_set_self (fs : Fs) (id : NodeId) (nr nr' : NodeRev)
    (h : getNodeRev fs id = some nr) :
    getNodeRev (setNodeRev fs id nr') id = some nr' := by
  unfold getNodeRev at h ⊢
  unfold setNodeRev
  obtain ⟨p, hp, -⟩ := Option.map_eq_some'.mp h
  rw [find_set_self fs.store id nr' (by rw [hp]; rfl)]
  rfl

/-- Updating one id leaves lookups of any other id unchanged. -/
theorem getNodeRev_set_ne (fs : Fs) (id id' : NodeId) (nr' : NodeRev)
    (h : id' ≠ id) :
    getNodeRev (setNodeRev fs id nr') id' = getNodeRev fs id' := by
  unfold getNodeRev setNodeRev
  rw [find_set_ne fs.store id id' nr' h]

/-- Looking the name up after `assocSet` finds the new binding. -/
theorem assocSet_find_self (l : List (String × NodeId × NodeKind))
    (name : String) (v : NodeId × NodeKind) :
    (assocSet l name v).find? (fun e => e.1 == name) = some (name, v) := by
  induction l with
  | nil => simp [assocSet]
  | cons e rest ih =>
    by_cases he : e.1 = name
    · simp [assocSet, he]
    · simp only [assocSet, if_neg he]
      have : (e.1 == name) = false := by
        simpa using he
      simp [List.find?_cons, this, ih]

/-- C5: for every working-copy entry whose conflicted flag is set and
whose reject files still exist on disk (the `svn_wc_conflicted_p`
answers recorded in the environment), `assemble_status` reports the
corresponding component as conflicted, and this overrides any
`modified` classification computed from the disk comparisons. -/
theorem C5_conflicted_overrides (e : WcEntry) (env : StatusEnv)
    (hc : e.conflicted = true) :
    (env.textConflictP = true →
      (assemble_status (some e) env).text_status = WcStatus.conflicted) ∧
    (env.propConflictP = true →
      (assemble_status (some e) env).prop_status = WcStatus.conflicted) := by
  constructor <;> intro h <;> simp [assemble_status, hc, h]

/-- Witness for C5 at a concrete conflicted file entry whose text and
props are also locally modified: conflicted still wins. -/
theorem C5_conflicted_overrides_w :
    (assemble_status (some ⟨NodeKind.file, Schedule.normal, true⟩)
        ⟨NodeKind.file, true, true, true, true⟩).text_status
      = WcStatus.conflicted ∧
    (assemble_status (some ⟨NodeKind.file, Schedule.normal, true⟩)
        ⟨NodeKind.file, true, true, true, true⟩).prop_status
      = WcStatus.conflicted :=
  ⟨(C5_conflicted_overrides ⟨NodeKind.file, Schedule.normal, true⟩
      ⟨NodeKind.file, true, true, true, true⟩ rfl).1 rfl,
   (C5_conflicted_overrides ⟨NodeKind.file, Schedule.normal, true⟩
      ⟨NodeKind.file, true, true, true, true⟩ rfl).2 rfl⟩

/-- C6: `add_directory` with well-formed copyfrom arguments (both set or
both unset) fails with `ObstructedUpdate` when an object already exists
on disk at the new path; with valid copyfrom arguments and no
obstruction it fails with `UnsupportedFeature`; and with copyfrom absent
and no obstruction it succeeds, the new directory inheriting the parent
entry's URL plus the name (and the edit's target revision). -/
theorem C6_add_directory (name : String) (cp : Option String)
    (cr : Option Int) (env : AddDirEnv) (hwf : cp.isSome = cr.isSome) :
    (env.diskKind ≠ NodeKind.none_ →
      add_directory name cp cr env =
        .err ⟨.obstructedUpdate, "object already exists and is in the way"⟩) ∧
    (env.diskKind = NodeKind.none_ → cp.isSome = true →
      add_directory name cp cr env =
        .err ⟨.unsupportedFeature, "copyfrom args are not supported yet"⟩) ∧
    (env.diskKind = NodeKind.none_ → cp = none → cr = none →
      add_directory name cp cr env =
        .ok (svn_path_join env.parentEntryUrl name) env.targetRevision) := by
  refine ⟨?_, ?_, ?_⟩
  · intro h
    cases cp <;> cases cr <;> simp_all [add_directory]
  · intro h hs
    cases cp <;> cases cr <;> simp_all [add_directory]
  · intro h h1 h2
    subst h1; subst h2
    simp [add_directory, h]

/-- Witness for C6: the three behaviours at concrete inputs. -/
theorem C6_add_directory_w :
    add_directory "d" none none ⟨NodeKind.dir, "u", 7⟩ =
      AddDirResult.err
        ⟨.obstructedUpdate, "object already exists and is in the way"⟩ ∧
    add_directory "d" (some "p") (some 3) ⟨NodeKind.none_, "u", 7⟩ =
      AddDirResult.err
        ⟨.unsupportedFeature, "copyfrom args are not supported yet"⟩ ∧
    add_directory "d" none none ⟨NodeKind.none_, "u", 7⟩ =
      AddDirResult.ok (svn_path_join "u" "d") 7 :=
  ⟨(C6_add_directory "d" none none ⟨NodeKind.dir, "u", 7⟩ rfl).1
      (by decide),
   (C6_add_directory "d" (some "p") (some 3) ⟨NodeKind.none_, "u", 7⟩
      rfl).2.1 rfl rfl,
   (C6_add_directory "d" none none ⟨NodeKind.none_, "u", 7⟩ rfl).2.2
      rfl rfl rfl⟩

/-- C9: `change_dir_prop` with a `NULL` value on an entry-prop stores
the empty string as the attribute's value in the directory's
`<this-dir>` entry rather than deleting the attribute. -/
theorem C9_entry_prop_null (name : String)
    (he : svn_wc_is_entry_prop name = true)
    (hw : svn_wc_is_wc_prop name = false) :
    change_dir_prop name none =
      DirPropAction.entryAttrSet (stripEntryPfx name) "" := by
  simp [change_dir_prop, he, hw]

/-- Witness for C9 at the `svn:entry:committed-rev` entry-prop. -/
theorem C9_entry_prop_null_w :
    change_dir_prop "svn:entry:committed-rev" none =
      DirPropAction.entryAttrSet
        (stripEntryPfx "svn:entry:committed-rev") "" :=
  C9_entry_prop_null "svn:entry:committed-rev" (by decide) (by decide)

/-- C10: at the editor's file interface, `open_file` on a name with no
entries record fails with `EntryNotFound`; `add_file` on a name with an
entries record but absent from disk succeeds (in a working copy); and,
in a working copy, `add_file` fails with `ObstructedUpdate` exactly when
an object of the same name exists on disk in the parent directory. -/
theorem C10_file_gate (name : String) (env : FileEnv) :
    (env.entryExists = false →
      open_file name env =
        .error ⟨.entryNotFound, "trying to open non-versioned file"⟩) ∧
    (env.isWc = true → env.entryExists = true → env.direntExists = false →
      add_file name env = .ok ()) ∧
    (env.isWc = true →
      isObstructedErr (add_file name env) = env.direntExists) := by
  obtain ⟨d, e, w⟩ := env
  refine ⟨?_, ?_, ?_⟩ <;> intros <;>
    cases d <;> cases e <;> cases w <;>
    simp_all [open_file, add_file, add_or_open_file, isObstructedErr]

/-- Witness for C10: the three behaviours at concrete environments. -/
theorem C10_file_gate_w :
    open_file "f" ⟨false, false, true⟩ =
      .error ⟨.entryNotFound, "trying to open non-versioned file"⟩ ∧
    add_file "f" ⟨false, true, true⟩ = .ok () ∧
    isObstructedErr (add_file "f" ⟨true, true, true⟩) = true :=
  ⟨(C10_file_gate "f" ⟨false, false, true⟩).1 rfl,
   (C10_file_gate "f" ⟨false, true, true⟩).2.1 rfl rfl rfl,
   (C10_file_gate "f" ⟨true, true, true⟩).2.2 rfl⟩

/-- C1 (amended): every mutating DAG operation (`set_entry`,
`make_file`/`make_dir`, `clone_child`, `get_edit_stream`,
`finalize_edits`) verifies `check_mutable(node, txn)` before mutating —
but `check_mutable` ignores its transaction argument and only tests that
the node's id carries *some* transaction; and while the violating
attempts fail with `NotMutable` in `make_entry`, `clone_child`,
`get_edit_stream` and `finalize_edits`, `svn_fs__dag_set_entry` reports
the violation under the `NotDirectory` error code (with an
immutable-node message). -/
theorem C1_mutability_gate (fs : Fs) (node : DagNode)
    (txn_id entry_name parent_path name copy_id : String) (id : NodeId)
    (himm : node.id.txnId = none) :
    (∀ (n : DagNode) (t : String),
      svn_fs__dag_check_mutable n t = n.id.txnId.isSome) ∧
    (node.kind = NodeKind.dir →
      svn_fs__dag_set_entry fs node entry_name id txn_id =
        .error ⟨.notDirectory, "Attempted to set entry in immutable node"⟩) ∧
    (node.kind = NodeKind.dir →
      svn_path_is_single_path_component name = true →
      svn_fs__dag_make_file fs node parent_path name txn_id =
        .error ⟨.notMutable, "Attempted to clone child of non-mutable node"⟩) ∧
    (node.kind = NodeKind.dir →
      svn_path_is_single_path_component name = true →
      svn_fs__dag_make_dir fs node parent_path name txn_id =
        .error ⟨.notMutable, "Attempted to clone child of non-mutable node"⟩) ∧
    (svn_fs__dag_clone_child fs node parent_path name copy_id txn_id =
        .error ⟨.notMutable, "Attempted to clone child of non-mutable node"⟩) ∧
    (node.kind = NodeKind.file →
      svn_fs__dag_get_edit_stream fs node txn_id =
        .error ⟨.notMutable,
          "Attempted to set textual contents of an immutable node"⟩) ∧
    (node.kind = NodeKind.file →
      svn_fs__dag_finalize_edits fs node txn_id =
        .err ⟨.notMutable,
          "Attempted to set textual contents of an immutable node"⟩) := by
  refine ⟨fun n t => rfl, ?_, ?_, ?_, ?_, ?_, ?_⟩
  · intro hk
    simp [svn_fs__dag_set_entry, svn_fs__dag_check_mutable, himm, hk]
  · intro hk hs
    simp [svn_fs__dag_make_file, make_entry, svn_fs__dag_check_mutable,
      himm, hk, hs]
  · intro hk hs
    simp [svn_fs__dag_make_dir, make_entry, svn_fs__dag_check_mutable,
      himm, hk, hs]
  · simp [svn_fs__dag_clone_child, svn_fs__dag_check_mutable, himm]
  · intro hk
    simp [svn_fs__dag_get_edit_stream, svn_fs__dag_check_mutable, himm, hk]
  · intro hk
    simp [svn_fs__dag_finalize_edits, svn_fs__dag_check_mutable, himm, hk]

/-- Witness for C1 at concrete immutable nodes. -/
theorem C1_mutability_gate_w :
    svn_fs__dag_set_entry exFsA exImmDirNode "e" ⟨5, "c", none⟩ "T" =
      .error ⟨.notDirectory, "Attempted to set entry in immutable node"⟩ ∧
    svn_fs__dag_make_file exFsA exImmDirNode "/" "f" "T" =
      .error ⟨.notMutable, "Attempted to clone child of non-mutable node"⟩ ∧
    svn_fs__dag_get_edit_stream exFsA exImmFileNode "T" =
      .error ⟨.notMutable,
        "Attempted to set textual contents of an immutable node"⟩ :=
  ⟨(C1_mutability_gate exFsA exImmDirNode "T" "e" "/" "f" "cp" ⟨5, "c", none⟩
      rfl).2.1 rfl,
   (C1_mutability_gate exFsA exImmDirNode "T" "e" "/" "f" "cp" ⟨5, "c", none⟩
      rfl).2.2.1 rfl (by decide),
   (C1_mutability_gate exFsA exImmFileNode "T" "e" "/" "f" "cp" ⟨5, "c", none⟩
      rfl).2.2.2.2.2.1 rfl⟩

/-- C1 counterexample: `svn_fs__dag_set_entry` on a node whose id
carries transaction `A`, invoked for transaction `B`, passes the
mutability check and succeeds — the claim's reading of `check_mutable`
("the node's NodeId carries that same txn") would require a `NotMutable`
failure here.  Moreover, on a genuinely immutable node the operation
fails with error code `NotDirectory`, not `NotMutable`. -/
theorem C1_counterexample :
    exMutANode.id.txnId = some "A" ∧
    (some "A" : Option String) ≠ some "B" ∧
    svn_fs__dag_check_mutable exMutANode "B" = true ∧
    (∃ fs', svn_fs__dag_set_entry exFsA exMutANode "e" ⟨5, "c", none⟩ "B" =
      .ok fs') ∧
    svn_fs__dag_set_entry exFsA exImmDirNode "e" ⟨5, "c", none⟩ "B" =
      .error ⟨.notDirectory, "Attempted to set entry in immutable node"⟩ ∧
    ErrCode.notDirectory ≠ ErrCode.notMutable :=
  ⟨rfl, by decide, rfl, ⟨_, rfl⟩, rfl, by decide⟩

/-- C3: for a mutable directory `parent` and a single-component name
with no existing entry, `make_entry` succeeds, and afterwards
`svn_fs__dag_open` on the same name returns exactly the created node,
whose kind is the requested one; calling `make_entry` again with the
same parent and name (any path, kind or transaction) fails with
`AlreadyExists`. -/
theorem C3_make_entry_then_open (fs : Fs) (parent : DagNode)
    (pnr : NodeRev) (parent_path name txn_id : String) (is_dir : Bool)
    (hlk : getNodeRev fs parent.id = some pnr)
    (hpk : parent.kind = NodeKind.dir)
    (hpnk : pnr.kind = NodeKind.dir)
    (hmut : parent.id.txnId.isSome = true)
    (hsingle : svn_path_is_single_path_component name = true)
    (hnone : pnr.entries.find? (fun en => en.1 == name) = none)
    (hfresh : freshKeys fs = true) :
    ∃ child fs',
      make_entry fs parent parent_path name is_dir txn_id =
        .ok (child, fs') ∧
      child.kind = (if is_dir then NodeKind.dir else NodeKind.file) ∧
      svn_fs__dag_open fs' parent name = .ok child ∧
      ∀ pp2 d2 t2, make_entry fs' parent pp2 name d2 t2 =
        .error ⟨.alreadyExists,
          "Attempted to create entry that already exists"⟩ := by
  have hm : ∀ t, svn_fs__dag_check_mutable parent t = true := by
    intro t; simpa [svn_fs__dag_check_mutable] using hmut
  have hde : dir_entry_id_from_node fs parent name = .ok none := by
    simp [dir_entry_id_from_node, svn_fs__dag_dir_entries, hlk, hpnk, hnone]
  have hne : parent.id ≠
      (⟨fs.nextKey, parent.id.copyKey, some txn_id⟩ : NodeId) := by
    have hk := getNodeRev_key_lt fs parent.id pnr hlk hfresh
    intro hh
    rw [hh] at hk
    simp at hk
  have hgetp : getNodeRev
      (⟨((⟨fs.nextKey, parent.id.copyKey, some txn_id⟩ : NodeId),
        (⟨(if is_dir then NodeKind.dir else NodeKind.file), none, 0, none,
          none, none, none, none, none, svn_path_join parent_path name,
          []⟩ : NodeRev)) :: fs.store, fs.nextKey + 1⟩ : Fs) parent.id
      = some pnr := by
    rw [getNodeRev_cons_ne fs.store (fs.nextKey + 1) fs.nextKey _ parent.id
      _ hne]
    exact hlk
  have h1 : make_entry fs parent parent_path name is_dir txn_id =
      .ok (⟨⟨fs.nextKey, parent.id.copyKey, some txn_id⟩,
            (if is_dir then NodeKind.dir else NodeKind.file),
            svn_path_join parent_path name⟩,
        setNodeRev
          ⟨((⟨fs.nextKey, parent.id.copyKey, some txn_id⟩ : NodeId),
            (⟨(if is_dir then NodeKind.dir else NodeKind.file), none, 0,
              none, none, none, none, none, none,
              svn_path_join parent_path name, []⟩ : NodeRev))
            :: fs.store, fs.nextKey + 1⟩ parent.id
          ⟨pnr.kind, pnr.predecessor_id, pnr.predecessor_count,
           pnr.copyfrom_path, pnr.copyfrom_rev, pnr.copyroot, pnr.data_rep,
           pnr.prop_rep, pnr.edit_key, pnr.created_path,
           assocSet pnr.entries name
             (⟨fs.nextKey, parent.id.copyKey, some txn_id⟩,
              (if is_dir then NodeKind.dir else NodeKind.file))⟩) := by
    simp [make_entry, hsingle, hpk, hm txn_id, hde, svn_fs__fs_create_node,
      svn_fs__dag_get_node, getNodeRev_cons_self, set_entry, hgetp]
  have hsetself := getNodeRev_set_self _ parent.id pnr
    ⟨pnr.kind, pnr.predecessor_id, pnr.predecessor_count,
     pnr.copyfrom_path, pnr.copyfrom_rev, pnr.copyroot, pnr.data_rep,
     pnr.prop_rep, pnr.edit_key, pnr.created_path,
     assocSet pnr.entries name
       (⟨fs.nextKey, parent.id.copyKey, some txn_id⟩,
        (if is_dir then NodeKind.dir else NodeKind.file))⟩ hgetp
  have hsetne := getNodeRev_set_ne
    (⟨((⟨fs.nextKey, parent.id.copyKey, some txn_id⟩ : NodeId),
      (⟨(if is_dir then NodeKind.dir else NodeKind.file), none, 0, none,
        none, none, none, none, none, svn_path_join parent_path name,
        []⟩ : NodeRev)) :: fs.store, fs.nextKey + 1⟩ : Fs) parent.id
    (⟨fs.nextKey, parent.id.copyKey, some txn_id⟩ : NodeId)
    ⟨pnr.kind, pnr.predecessor_id, pnr.predecessor_count,
     pnr.copyfrom_path, pnr.copyfrom_rev, pnr.copyroot, pnr.data_rep,
     pnr.prop_rep, pnr.edit_key, pnr.created_path,
     assocSet pnr.entries name
       (⟨fs.nextKey, parent.id.copyKey, some txn_id⟩,
        (if is_dir then NodeKind.dir else NodeKind.file))⟩
    (Ne.symm hne)
  simp only [hpnk] at hsetself hsetne
  refine ⟨_, _, h1, rfl, ?_, ?_⟩
  · simp [svn_fs__dag_open, dir_entry_id_from_node, svn_fs__dag_dir_entries,
      hsetself, hpnk, assocSet_find_self, hsingle, svn_fs__dag_get_node,
      hsetne, getNodeRev_cons_self]
  · intro pp2 d2 t2
    simp [make_entry, hsingle, hpk, hm t2, dir_entry_id_from_node,
      svn_fs__dag_dir_entries, hsetself, hpnk, assocSet_find_self]

/-- Witness for C3: making file `f` in the example mutable directory,
then opening it, then attempting the same `make_entry` again. -/
theorem C3_make_entry_then_open_w :
    ∃ child fs',
      make_entry exFsA exMutANode "/" "f" false "A" = .ok (child, fs') ∧
      child.kind = (if false then NodeKind.dir else NodeKind.file) ∧
      svn_fs__dag_open fs' exMutANode "f" = .ok child ∧
      ∀ pp2 d2 t2, make_entry fs' exMutANode pp2 "f" d2 t2 =
        .error ⟨.alreadyExists,
          "Attempted to create entry that already exists"⟩ :=
  C3_make_entry_then_open exFsA exMutANode exDirNr "/" "f" "A" false
    rfl rfl rfl rfl (by decide) rfl (by decide)

/-- C4 (amended): for a mutable parent directory with an entry `name`
pointing at a child present in the store, `clone_child` returns the
child unchanged — same NodeId, same store, hence no second successor —
whenever the child's id carries *any* transaction (`check_mutable`
ignores which one); only a child with no transaction in its id is
cloned: a successor node revision is created whose `predecessor_id` is
the child's id and whose `predecessor_count` is incremented when it is
not `-1`, the parent's entry is replaced to point at the new mutable
child, the original immutable node revision remains, and cloning again
in the same transaction returns the same NodeId with the store
unchanged. -/
theorem C4_clone_child (fs : Fs) (parent : DagNode) (pnr cnr : NodeRev)
    (parent_path name copy_id txn_id : String) (childId : NodeId)
    (ckind : NodeKind)
    (hlk : getNodeRev fs parent.id = some pnr)
    (hpnk : pnr.kind = NodeKind.dir)
    (hmut : parent.id.txnId.isSome = true)
    (hsingle : svn_path_is_single_path_component name = true)
    (hentry : pnr.entries.find? (fun en => en.1 == name) =
      some (name, childId, ckind))
    (hclk : getNodeRev fs childId = some cnr)
    (hpc : childId ≠ parent.id)
    (hpar_ne : parent.id ≠
      (⟨childId.nodeKey, copy_id, some txn_id⟩ : NodeId)) :
    (childId.txnId.isSome = true →
      svn_fs__dag_clone_child fs parent parent_path name copy_id txn_id =
        .ok (⟨childId, cnr.kind, cnr.created_path⟩, fs)) ∧
    (childId.txnId = none →
      ∃ fs2,
        svn_fs__dag_clone_child fs parent parent_path name copy_id txn_id =
          .ok (⟨⟨childId.nodeKey, copy_id, some txn_id⟩, cnr.kind,
            svn_path_join parent_path name⟩, fs2) ∧
        getNodeRev fs2 ⟨childId.nodeKey, copy_id, some txn_id⟩ =
          some ⟨cnr.kind, some childId,
            bump_predecessor_count cnr.predecessor_count,
            cnr.copyfrom_path, cnr.copyfrom_rev, cnr.copyroot, cnr.data_rep,
            cnr.prop_rep, cnr.edit_key, svn_path_join parent_path name,
            cnr.entries⟩ ∧
        dir_entry_id_from_node fs2 parent name =
          .ok (some ⟨childId.nodeKey, copy_id, some txn_id⟩) ∧
        getNodeRev fs2 childId = getNodeRev fs childId ∧
        ∀ pp2 cp2 t2,
          svn_fs__dag_clone_child fs2 parent pp2 name cp2 t2 =
            .ok (⟨⟨childId.nodeKey, copy_id, some txn_id⟩, cnr.kind,
              svn_path_join parent_path name⟩, fs2)) := by
  have hm : ∀ t, svn_fs__dag_check_mutable parent t = true := by
    intro t; simpa [svn_fs__dag_check_mutable] using hmut
  have hpm : ¬(parent.id.txnId = none) := by
    intro h; rw [h] at hmut; simp at hmut
  have hop : svn_fs__dag_open fs parent name =
      .ok ⟨childId, cnr.kind, cnr.created_path⟩ := by
    simp [svn_fs__dag_open, dir_entry_id_from_node, svn_fs__dag_dir_entries,
      hlk, hpnk, hentry, hsingle, svn_fs__dag_get_node, hclk]
  constructor
  · intro hmc
    simp [svn_fs__dag_clone_child, hm txn_id, hsingle, hop,
      svn_fs__dag_check_mutable, hmc, svn_fs__dag_get_node, hclk]
    intro h
    rw [h] at hmut
    simp at hmut
  · intro himm
    have hcn : childId ≠ (⟨childId.nodeKey, copy_id, some txn_id⟩ : NodeId) := by
      intro hh
      have := congrArg NodeId.txnId hh
      simp [himm] at this
    have hget1p : getNodeRev
        (⟨((⟨childId.nodeKey, copy_id, some txn_id⟩ : NodeId),
          (⟨cnr.kind, some childId,
            bump_predecessor_count cnr.predecessor_count,
            cnr.copyfrom_path, cnr.copyfrom_rev, cnr.copyroot, cnr.data_rep,
            cnr.prop_rep, cnr.edit_key, svn_path_join parent_path name,
            cnr.entries⟩ : NodeRev)) :: fs.store, fs.nextKey⟩ : Fs)
        parent.id = some pnr := by
      rw [getNodeRev_cons_ne fs.store fs.nextKey fs.nextKey _ parent.id _
        hpar_ne]
      exact hlk
    refine ⟨setNodeRev
        (⟨((⟨childId.nodeKey, copy_id, some txn_id⟩ : NodeId),
          (⟨cnr.kind, some childId,
            bump_predecessor_count cnr.predecessor_count,
            cnr.copyfrom_path, cnr.copyfrom_rev, cnr.copyroot, cnr.data_rep,
            cnr.prop_rep, cnr.edit_key, svn_path_join parent_path name,
            cnr.entries⟩ : NodeRev)) :: fs.store, fs.nextKey⟩ : Fs)
        parent.id
        ⟨NodeKind.dir, pnr.predecessor_id, pnr.predecessor_count,
         pnr.copyfrom_path, pnr.copyfrom_rev, pnr.copyroot, pnr.data_rep,
         pnr.prop_rep, pnr.edit_key, pnr.created_path,
         assocSet pnr.entries name
           (⟨childId.nodeKey, copy_id, some txn_id⟩, cnr.kind)⟩,
      ?_, ?_, ?_, ?_, ?_⟩
    · simp [svn_fs__dag_clone_child, hm txn_id, hsingle, hop,
        svn_fs__dag_check_mutable, himm, hclk, hpnk, hpm,
        svn_fs__fs_create_successor, set_entry, hget1p,
        svn_fs__dag_get_node, getNodeRev_set_ne _ parent.id _ _
          (Ne.symm hpar_ne), getNodeRev_cons_self]
    · rw [getNodeRev_set_ne _ parent.id _ _ (Ne.symm hpar_ne)]
      exact getNodeRev_cons_self _ _ _ _
    · have hps := getNodeRev_set_self _ parent.id pnr
        ⟨pnr.kind, pnr.predecessor_id, pnr.predecessor_count,
         pnr.copyfrom_path, pnr.copyfrom_rev, pnr.copyroot, pnr.data_rep,
         pnr.prop_rep, pnr.edit_key, pnr.created_path,
         assocSet pnr.entries name
           (⟨childId.nodeKey, copy_id, some txn_id⟩, cnr.kind)⟩ hget1p
      simp only [hpnk] at hps
      simp [dir_entry_id_from_node, svn_fs__dag_dir_entries, hps,
        assocSet_find_self]
    · rw [getNodeRev_set_ne _ parent.id _ _ hpc]
      rw [getNodeRev_cons_ne fs.store fs.nextKey fs.nextKey _ childId _ hcn]
    · intro pp2 cp2 t2
      have hps := getNodeRev_set_self _ parent.id pnr
        ⟨pnr.kind, pnr.predecessor_id, pnr.predecessor_count,
         pnr.copyfrom_path, pnr.copyfrom_rev, pnr.copyroot, pnr.data_rep,
         pnr.prop_rep, pnr.edit_key, pnr.created_path,
         assocSet pnr.entries name
           (⟨childId.nodeKey, copy_id, some txn_id⟩, cnr.kind)⟩ hget1p
      simp only [hpnk] at hps
      have hgnew : getNodeRev
          (setNodeRev
            (⟨((⟨childId.nodeKey, copy_id, some txn_id⟩ : NodeId),
              (⟨cnr.kind, some childId,
                bump_predecessor_count cnr.predecessor_count,
                cnr.copyfrom_path, cnr.copyfrom_rev, cnr.copyroot,
                cnr.data_rep, cnr.prop_rep, cnr.edit_key,
                svn_path_join parent_path name, cnr.entries⟩ : NodeRev))
              :: fs.store, fs.nextKey⟩ : Fs) parent.id
            ⟨NodeKind.dir, pnr.predecessor_id, pnr.predecessor_count,
             pnr.copyfrom_path, pnr.copyfrom_rev, pnr.copyroot, pnr.data_rep,
             pnr.prop_rep, pnr.edit_key, pnr.created_path,
             assocSet pnr.entries name
               (⟨childId.nodeKey, copy_id, some txn_id⟩, cnr.kind)⟩)
          (⟨childId.nodeKey, copy_id, some txn_id⟩ : NodeId) =
          some ⟨cnr.kind, some childId,
            bump_predecessor_count cnr.predecessor_count,
            cnr.copyfrom_path, cnr.copyfrom_rev, cnr.copyroot, cnr.data_rep,
            cnr.prop_rep, cnr.edit_key, svn_path_join parent_path name,
            cnr.entries⟩ := by
        rw [getNodeRev_set_ne _ parent.id _ _ (Ne.symm hpar_ne)]
        exact getNodeRev_cons_self _ _ _ _
      have hop2 : svn_fs__dag_open
          (setNodeRev
            (⟨((⟨childId.nodeKey, copy_id, some txn_id⟩ : NodeId),
              (⟨cnr.kind, some childId,
                bump_predecessor_count cnr.predecessor_count,
                cnr.copyfrom_path, cnr.copyfrom_rev, cnr.copyroot,
                cnr.data_rep, cnr.prop_rep, cnr.edit_key,
                svn_path_join parent_path name, cnr.entries⟩ : NodeRev))
              :: fs.store, fs.nextKey⟩ : Fs) parent.id
            ⟨NodeKind.dir, pnr.predecessor_id, pnr.predecessor_count,
             pnr.copyfrom_path, pnr.copyfrom_rev, pnr.copyroot, pnr.data_rep,
             pnr.prop_rep, pnr.edit_key, pnr.created_path,
             assocSet pnr.entries name
               (⟨childId.nodeKey, copy_id, some txn_id⟩, cnr.kind)⟩)
          parent name =
          .ok ⟨⟨childId.nodeKey, copy_id, some txn_id⟩, cnr.kind,
            svn_path_join parent_path name⟩ := by
        simp [svn_fs__dag_open, dir_entry_id_from_node,
          svn_fs__dag_dir_entries, hps, assocSet_find_self, hsingle,
          svn_fs__dag_get_node, hgnew]
      simp [svn_fs__dag_clone_child, hm t2, hsingle, hop2,
        svn_fs__dag_check_mutable, svn_fs__dag_get_node, hgnew, hpm]

/-- C4 counterexample: the child's id carries transaction `B`, the
clone is requested for transaction `A` — so the child is *not* mutable
within that transaction — yet `clone_child` returns it unchanged with
the store untouched (no successor), because `check_mutable` ignores the
transaction argument. -/
theorem C4_counterexample :
    exC4ChildIdB.txnId = some "B" ∧
    (some "B" : Option String) ≠ some "A" ∧
    svn_fs__dag_clone_child exC4FsB exMutANode "/" "c" "cp" "A" =
      .ok (⟨exC4ChildIdB, NodeKind.dir, "/c"⟩, exC4FsB) :=
  ⟨rfl, by decide, rfl⟩

/-- Witness for C4: cloning the already-mutable child returns it
unchanged; cloning the immutable child creates the successor, bumps the
count, replaces the parent entry, keeps the original node revision, and
is idempotent. -/
theorem C4_clone_child_w :
    svn_fs__dag_clone_child exC4FsB exMutANode "/" "c" "cp" "A" =
      .ok (⟨exC4ChildIdB, exC4ChildNr.kind, exC4ChildNr.created_path⟩,
        exC4FsB) ∧
    (∃ fs2,
      svn_fs__dag_clone_child exC4FsImm exMutANode "/" "c" "cp" "A" =
        .ok (⟨⟨exC4ChildIdImm.nodeKey, "cp", some "A"⟩, exC4ChildNr.kind,
          svn_path_join "/" "c"⟩, fs2) ∧
      getNodeRev fs2 ⟨exC4ChildIdImm.nodeKey, "cp", some "A"⟩ =
        some ⟨exC4ChildNr.kind, some exC4ChildIdImm,
          bump_predecessor_count exC4ChildNr.predecessor_count,
          exC4ChildNr.copyfrom_path, exC4ChildNr.copyfrom_rev,
          exC4ChildNr.copyroot, exC4ChildNr.data_rep, exC4ChildNr.prop_rep,
          exC4ChildNr.edit_key, svn_path_join "/" "c",
          exC4ChildNr.entries⟩ ∧
      dir_entry_id_from_node fs2 exMutANode "c" =
        .ok (some ⟨exC4ChildIdImm.nodeKey, "cp", some "A"⟩) ∧
      getNodeRev fs2 exC4ChildIdImm = getNodeRev exC4FsImm exC4ChildIdImm ∧
      ∀ pp2 cp2 t2,
        svn_fs__dag_clone_child fs2 exMutANode pp2 "c" cp2 t2 =
          .ok (⟨⟨exC4ChildIdImm.nodeKey, "cp", some "A"⟩,
            exC4ChildNr.kind, svn_path_join "/" "c"⟩, fs2)) :=
  ⟨(C4_clone_child exC4FsB exMutANode exC4ParentNrB exC4ChildNr "/" "c"
      "cp" "A" exC4ChildIdB NodeKind.dir rfl rfl rfl (by decide) rfl rfl
      (by decide) (by decide)).1 rfl,
   (C4_clone_child exC4FsImm exMutANode exC4ParentNrImm exC4ChildNr "/" "c"
      "cp" "A" exC4ChildIdImm NodeKind.dir rfl rfl rfl (by decide) rfl rfl
      (by decide) (by decide)).2 rfl⟩

/-- From the store invariant: a node with known count and a predecessor
has that predecessor present, with known, strictly smaller count. -/
theorem wf_lookup (fs : Fs) (cur : NodeId) (nr : NodeRev) (pid : NodeId)
    (hwf : wellFormedFs fs = true)
    (h : getNodeRev fs cur = some nr)
    (hc : 0 ≤ nr.predecessor_count)
    (hp : nr.predecessor_id = some pid) :
    ∃ qnr, getNodeRev fs pid = some qnr ∧ 0 ≤ qnr.predecessor_count ∧
      qnr.predecessor_count < nr.predecessor_count := by
  have h' := h
  unfold getNodeRev at h'
  obtain ⟨pr, hpr, hpr2⟩ := Option.map_eq_some'.mp h'
  have hmem := List.mem_of_find?_eq_some hpr
  have hpred := List.find?_some hpr
  have hkey : pr.1 = cur := of_decide_eq_true hpred
  have hall := (List.all_eq_true.mp hwf) pr hmem
  rw [hkey] at hall
  unfold wfAt at hall
  simp only [h] at hall
  rw [if_pos hc] at hall
  simp only [hp] at hall
  cases hq : getNodeRev fs pid with
  | none => simp [hq] at hall
  | some qnr =>
    simp only [hq] at hall
    exact ⟨qnr, rfl, of_decide_eq_true hall⟩

/-- The predecessor walk terminates with at most `count + 1` callback
invocations on any node whose predecessor count is known, in a
well-formed store, given fuel above the count. -/
theorem walk_total {σ : Type} (fs : Fs) (cb : σ → Option NodeId → σ × Bool)
    (hwf : wellFormedFs fs = true) :
    ∀ (fuel : Nat) (cur : NodeId) (nr : NodeRev) (k : Nat) (s : σ),
      getNodeRev fs cur = some nr →
      nr.predecessor_count = (k : Int) →
      k < fuel →
      ∃ s2 c, svn_fs__dag_walk_predecessors fs cb fuel s cur =
        .ok (s2, c) ∧ c ≤ k + 1 := by
  intro fuel
  induction fuel with
  | zero =>
    intro cur nr k s h hk hlt
    exact absurd hlt (Nat.not_lt_zero k)
  | succ f ih =>
    intro cur nr k s h hk hlt
    cases hp : nr.predecessor_id with
    | none =>
      refine ⟨(cb s none).1, 1, ?_, by omega⟩
      simp [svn_fs__dag_walk_predecessors, h, hp]
    | some p =>
      have hc : 0 ≤ nr.predecessor_count := by
        rw [hk]; exact Int.natCast_nonneg k
      obtain ⟨qnr, hq, hq0, hqlt⟩ := wf_lookup fs cur nr p hwf h hc hp
      by_cases hd : (cb s (some p)).2 = true
      · refine ⟨(cb s (some p)).1, 1, ?_, by omega⟩
        simp [svn_fs__dag_walk_predecessors, h, hp, hq, hd]
      · have hk' : qnr.predecessor_count =
            ((qnr.predecessor_count.toNat : Nat) : Int) :=
          (Int.toNat_of_nonneg hq0).symm
        have hk'lt : qnr.predecessor_count.toNat < f := by
          rw [hk] at hqlt
          omega
        obtain ⟨s2, c, hww, hc2⟩ := ih p qnr qnr.predecessor_count.toNat
          ((cb s (some p)).1) hq hk' hk'lt
        refine ⟨s2, c + 1, ?_, by omega⟩
        simp [svn_fs__dag_walk_predecessors, h, hp, hq, hd, hww]

/-- The ancestry callback's hit flag is monotone along the walk: once
true, the walk's final state is true. -/
theorem walk_flag_mono (fs : Fs) (tid : NodeId) (np : Bool) :
    ∀ (fuel : Nat) (cur : NodeId) (s2 : Bool) (c : Nat),
      svn_fs__dag_walk_predecessors fs (is_ancestor_callback tid np)
        fuel true cur = .ok (s2, c) →
      s2 = true := by
  intro fuel
  induction fuel with
  | zero =>
    intro cur s2 c h
    simp [svn_fs__dag_walk_predecessors] at h
  | succ f ih =>
    intro cur s2 c h
    simp only [svn_fs__dag_walk_predecessors] at h
    cases hcur : getNodeRev fs cur with
    | none => simp [hcur] at h
    | some nr =>
      simp only [hcur] at h
      cases hp : nr.predecessor_id with
      | none =>
        simp only [hp, is_ancestor_callback] at h
        simp at h
        exact h.1
      | some p =>
        simp only [hp] at h
        cases hq : getNodeRev fs p with
        | none => simp [hq] at h
        | some qnr =>
          simp only [hq, is_ancestor_callback, Bool.true_or] at h
          by_cases hnp : np = true
          · rw [hnp] at h
            simp at h
            exact h.1
          · have hnp' : np = false := by
              cases np
              · rfl
              · exact absurd rfl hnp
            rw [hnp'] at h
            simp only [Bool.false_eq_true, if_false] at h
            cases hw : svn_fs__dag_walk_predecessors fs
                (is_ancestor_callback tid false) f true p with
            | error e => rw [hw] at h; simp at h
            | ok r =>
              rw [hw] at h
              simp at h
              have ih2 := ih p r.1 r.2
              rw [hnp'] at ih2
              have hr := ih2 (by rw [hw])
              obtain ⟨h1, -⟩ := h
              rw [← h1]
              exact hr

/-- C7: `walk_predecessors` repeatedly resolves `predecessor_id`,
invoking the callback on each step and a final time with `nil` when the
chain is exhausted (this is the shape of
`svn_fs__dag_walk_predecessors`); consequently, in a store satisfying
the predecessor-count invariant, when the node's `predecessor_count` is
a known `k ≥ 0` the callback is invoked at most `k + 1` times and the
walk terminates within any fuel above `k`. -/
theorem C7_walk_bound {σ : Type} (fs : Fs)
    (cb : σ → Option NodeId → σ × Bool) (n : NodeId) (nr : NodeRev)
    (k fuel : Nat) (s : σ)
    (hwf : wellFormedFs fs = true)
    (h : getNodeRev fs n = some nr)
    (hk : nr.predecessor_count = (k : Int))
    (hfuel : k < fuel) :
    ∃ s2 c, svn_fs__dag_walk_predecessors fs cb fuel s n = .ok (s2, c) ∧
      c ≤ k + 1 :=
  walk_total fs cb hwf fuel n nr k s h hk hfuel

/-- Witness for C7 on the two-node chain with a callback that never
sets `done`: the walk returns and calls the callback at most twice. -/
theorem C7_walk_bound_w :
    ∃ (s2 : Unit) (c : Nat),
      svn_fs__dag_walk_predecessors exC8Fs
        (fun (s : Unit) (_ : Option NodeId) => (s, false)) 2 ()
        ⟨0, "d", some "T"⟩ = .ok (s2, c) ∧ c ≤ 1 + 1 :=
  C7_walk_bound exC8Fs (fun s _ => (s, false)) ⟨0, "d", some "T"⟩
    exC8NrNew 1 2 () (by decide) rfl rfl (by decide)

/-- C8: `is_ancestor` answering true implies the two ids are related,
and `is_parent` answering true implies `is_ancestor` answers true (the
parent walk stops after one step; the hypotheses provide the ancestor
walk's termination in a well-formed store). -/
theorem C8_ancestry (fs : Fs) (fuel : Nat) (n1 n2 : DagNode)
    (nr2 : NodeRev) (k : Nat)
    (hwf : wellFormedFs fs = true)
    (h2 : getNodeRev fs n2.id = some nr2)
    (hk : nr2.predecessor_count = (k : Int))
    (hfuel : k < fuel) :
    (svn_fs__dag_is_ancestor fs fuel n1 n2 = .ok true →
      svn_fs_check_related n1.id n2.id = true) ∧
    (svn_fs__dag_is_parent fs fuel n1 n2 = .ok true →
      svn_fs__dag_is_ancestor fs fuel n1 n2 = .ok true) := by
  constructor
  · intro h
    cases hr : svn_fs_check_related n1.id n2.id with
    | true => rfl
    | false => simp [svn_fs__dag_is_ancestor, hr] at h
  · intro hp
    cases hr : svn_fs_check_related n1.id n2.id with
    | false => simp [svn_fs__dag_is_parent, hr] at hp
    | true =>
      simp only [svn_fs__dag_is_parent, hr, Bool.not_true, Bool.false_eq_true,
        if_false] at hp
      obtain ⟨f, rfl⟩ : ∃ f, fuel = f + 1 := ⟨fuel - 1, by omega⟩
      simp only [svn_fs__dag_walk_predecessors, h2] at hp
      cases hpred : nr2.predecessor_id with
      | none =>
        simp only [hpred, is_ancestor_callback] at hp
        simp at hp
      | some p =>
        simp only [hpred] at hp
        cases hq : getNodeRev fs p with
        | none => simp [hq] at hp
        | some qnr =>
          simp only [hq, is_ancestor_callback, Bool.false_or] at hp
          simp at hp
          have hpn1 : p = n1.id := hp
          have hc2 : 0 ≤ nr2.predecessor_count := by
            rw [hk]; exact Int.natCast_nonneg k
          obtain ⟨qnr', hq', hq0, hqlt⟩ :=
            wf_lookup fs n2.id nr2 p hwf h2 hc2 hpred
          rw [hq] at hq'
          obtain rfl : qnr = qnr' := by
            exact (Option.some.injEq _ _).mp hq'
          have hk' : qnr.predecessor_count =
              ((qnr.predecessor_count.toNat : Nat) : Int) :=
            (Int.toNat_of_nonneg hq0).symm
          have hk'f : qnr.predecessor_count.toNat < f := by
            rw [hk] at hqlt
            omega
          obtain ⟨s2, c, hwrec, -⟩ := walk_total fs
            (is_ancestor_callback n1.id false) hwf f p qnr
            qnr.predecessor_count.toNat true hq hk' hk'f
          have hs2 : s2 = true := walk_flag_mono fs n1.id false f p s2 c hwrec
          subst hpn1
          simp [svn_fs__dag_is_ancestor, hr, svn_fs__dag_walk_predecessors,
            h2, hpred, hq, is_ancestor_callback, hwrec, hs2]

/-- Witness for C8 on the two-node chain: the successor's parent is the
root, hence also its ancestor, and the two ids are related. -/
theorem C8_ancestry_w :
    svn_fs__dag_is_parent exC8Fs 2 exC8N1 exC8N2 = .ok true ∧
    svn_fs__dag_is_ancestor exC8Fs 2 exC8N1 exC8N2 = .ok true ∧
    svn_fs_check_related exC8N1.id exC8N2.id = true :=
  have h := C8_ancestry exC8Fs 2 exC8N1 exC8N2 exC8NrNew 1
    (by decide) rfl rfl (by decide)
  ⟨rfl, h.2 rfl, h.1 (h.2 rfl)⟩

/-- No record of the installer's textual-merge section carries the
`MODIFY_ENTRY` tag: it emits only `MV`, `CP`, `RM`, `RUN_CMD`,
`DETECT_CONFLICT` and `READONLY` records. -/
theorem installTextSection_tags (env : InstallEnv) (bn : String)
    (rp ep : List SProp) (nu : Option String) :
    (installTextSection env bn rp ep nu).all
      (fun c => !(c.tag == LogTag.modifyEntry)) = true := by
  have hpush : ∀ (C : Prop) (inst : Decidable C) (X Y : List LogCmd),
      List.all (if C then X else Y)
          (fun c => !(c.tag == LogTag.modifyEntry)) =
        if C then List.all X (fun c => !(c.tag == LogTag.modifyEntry))
        else List.all Y (fun c => !(c.tag == LogTag.modifyEntry)) := by
    intro C inst X Y
    exact apply_ite
      (fun l => List.all l (fun c => !(c.tag == LogTag.modifyEntry))) C X Y
  unfold installTextSection
  simp only [List.all_append, hpush, List.all_cons, List.all_nil,
    make_translation_open_tag, make_patch_open_tag]
  simp

/-- C2 (amended): the log written by `svn_wc_install_file` always
contains the `MODIFY_ENTRY` record setting the file's kind and the new
revision; and — provided the supplied properties contain no entry-prop
that itself strips to the `text-time` attribute with value `WC` — when a
new text base is provided, a `MODIFY_ENTRY` record setting
`text-time=WC` appears in the log if and only if the working file is
not locally modified. -/
theorem C2_install_file_log (env : InstallEnv) (basename : String)
    (new_revision : Int) (hasNewText : Bool) (props : Option (List SProp))
    (is_full_proplist : Bool) (newURL : Option String)
    (hnc : ∀ ps, props = some ps → ∀ p ∈ ps,
      svn_wc_is_entry_prop p.name = true →
      ¬(stripEntryPfx p.name = attrTextTime ∧
        p.value.getD "" = timestampWC)) :
    kindRevCmd basename new_revision ∈
      svn_wc_install_file_log env basename new_revision hasNewText props
        is_full_proplist newURL ∧
    (hasNewText = true →
      (textTimeCmd basename ∈
        svn_wc_install_file_log env basename new_revision hasNewText props
          is_full_proplist newURL ↔ env.isLocallyModified = false)) := by
  constructor
  · simp [svn_wc_install_file_log]
  · intro ht
    subst ht
    constructor
    · intro hmem
      by_contra hlm
      have hlm' : env.isLocallyModified = true := by
        cases h : env.isLocallyModified
        · exact absurd h hlm
        · rfl
      have htext : ∀ (rp ep : List SProp),
          textTimeCmd basename ∉
            installTextSection env basename rp ep newURL := by
        intro rp ep hmm
        have := List.all_eq_true.mp
          (installTextSection_tags env basename rp ep newURL) _ hmm
        simp [textTimeCmd] at this
      cases props with
      | none =>
        cases newURL with
        | none =>
          simp only [svn_wc_install_file_log, hlm'] at hmem
          simp [textTimeCmd, kindRevCmd, attrTextTime, attrKind,
            attrNameName, timestampWC, kindFileStr] at hmem
          exact htext _ _ hmem
        | some u =>
          simp only [svn_wc_install_file_log, hlm'] at hmem
          simp [textTimeCmd, kindRevCmd, attrTextTime, attrKind, attrUrl,
            attrNameName, timestampWC, kindFileStr] at hmem
          exact htext _ _ hmem
      | some ps =>
        cases newURL with
        | none =>
          simp only [svn_wc_install_file_log, hlm'] at hmem
          simp [textTimeCmd, kindRevCmd, attrTextTime, attrKind,
            attrPropTime, attrNameName, timestampWC, kindFileStr,
            List.mem_map, List.mem_filter] at hmem
          rcases hmem with h | h
          · obtain ⟨p, ⟨hp1, hp2⟩, hp3, hp4⟩ := h
            exact hnc ps rfl p hp1 hp2 ⟨hp3, hp4⟩
          · exact htext _ _ h
        | some u =>
          simp only [svn_wc_install_file_log, hlm'] at hmem
          simp [textTimeCmd, kindRevCmd, attrTextTime, attrKind, attrUrl,
            attrPropTime, attrNameName, timestampWC, kindFileStr,
            List.mem_map, List.mem_filter] at hmem
          rcases hmem with h | h
          · obtain ⟨p, ⟨hp1, hp2⟩, hp3, hp4⟩ := h
            exact hnc ps rfl p hp1 hp2 ⟨hp3, hp4⟩
          · exact htext _ _ h
    · intro hnl
      simp [svn_wc_install_file_log, hnl]

/-- C2 counterexample: with a locally modified working file and a new
text base, supplying the entry-prop `svn:entry:text-time` with value
`WC` puts a `MODIFY_ENTRY text-time=WC` record into the installer's log
(via the entry-prop pass) even though the working file *is* locally
modified — refuting the claim's "if and only if". -/
theorem C2_counterexample :
    exInstallEnv.isLocallyModified = true ∧
    textTimeCmd "f" ∈
      svn_wc_install_file_log exInstallEnv "f" 5 true
        (some [⟨"svn:entry:text-time", some "WC"⟩]) false none :=
  ⟨rfl, by decide⟩

/-- Witness for C2 at a no-local-modification environment with no
properties: the kind/revision record is present and the text-time
record's presence matches the (absent) local modification. -/
theorem C2_install_file_log_w :
    kindRevCmd "f" 5 ∈
      svn_wc_install_file_log exInstallEnvNoMod "f" 5 true none false none ∧
    (true = true →
      (textTimeCmd "f" ∈
        svn_wc_install_file_log exInstallEnvNoMod "f" 5 true none false none
          ↔ exInstallEnvNoMod.isLocallyModified = false)) :=
  C2_install_file_log exInstallEnvNoMod "f" 5 true none false none
    (by intro ps h; cases h)
